import Mathlib

/-
  Verification development for the SageBrowser form-field resolution and
  interaction engine (src/browser/browser.py).

  The in-page JavaScript that browser.py injects is embedded shallowly:
  a DOM snapshot is a list of element nodes in document (preorder) order,
  each carrying its tree address and the attributes / computed-style data
  that the scripts read.  Text nodes are represented by the ownText field
  of their parent element, placed before the text of the children; this is
  the only simplification of document text order.  All definitions are
  executable so that concrete pages can be evaluated inside proofs.
-/

namespace SageBrowser

/-- Character-list comparison: the first list leads the second. -/
def charsLeading : List Char → List Char → Bool
  | [], _ => true
  | _ :: _, [] => false
  | a :: as, b :: bs => a == b && charsLeading as bs

/-- The first list occurs contiguously inside the second. -/
def charsInside (sub : List Char) : List Char → Bool
  | [] => sub.isEmpty
  | b :: bs => charsLeading sub (b :: bs) || charsInside sub bs

/-- JS String.prototype.includes: sub occurs inside s. -/
def strContains (s sub : String) : Bool :=
  charsInside sub.toList s.toList

/-- JS String.prototype.toLowerCase, over the character list so that the
kernel can evaluate it. -/
def strLower (s : String) : String :=
  String.mk (s.data.map Char.toLower)

def isWSpaceChar (c : Char) : Bool :=
  c == ' ' || c == '\t' || c == '\n' || c == '\r'

/-- JS String.prototype.trim, over the character list. -/
def strTrim (s : String) : String :=
  String.mk (((s.data.dropWhile isWSpaceChar).reverse.dropWhile isWSpaceChar).reverse)

/-- A bounding client rect, as read by getBoundingClientRect(). -/
structure Rect where
  left : Int := 0
  top : Int := 0
  width : Int := 100
  height : Int := 20
deriving Repr, DecidableEq

def Rect.bottom (r : Rect) : Int := r.top + r.height

def Rect.right (r : Rect) : Int := r.left + r.width

/-- The attributes, properties and computed style of one DOM element that
the injected scripts consult.  The type field is the DOM .type property of
the element (for inputs it coincides with the type attribute, an absent
attribute being represented by "text"). -/
structure Attrs where
  tag : String := "DIV"
  id : String := ""
  name : String := ""
  placeholder : String := ""
  ariaLabel : String := ""
  role : String := ""
  type : String := ""
  contenteditable : String := ""
  htmlFor : String := ""
  classes : List String := []
  display : String := "block"
  visibility : String := "visible"
  opacity : String := "1"
  offsetParentNull : Bool := false
  fontWeight : Nat := 400
  rect : Rect := {}
  ownText : String := ""
  value : String := ""
  checked : Bool := false
  required : Bool := false
  ariaRequired : String := ""
deriving Repr, DecidableEq

/-- A tree address: the list of child indices from the document root (the
BODY element, address []) down to the element. -/
abbrev Addr := List Nat

/-- One element of the snapshot: its address and its data. -/
structure DomNode where
  addr : Addr
  attrs : Attrs
deriving Repr, DecidableEq

/-- A DOM snapshot: all elements in document (preorder) order, the BODY
root first. -/
abbrev Doc := List DomNode

def attrsAt (doc : Doc) (p : Addr) : Attrs :=
  ((doc.find? (fun n => n.addr == p)).map DomNode.attrs).getD {}

def tagAt (doc : Doc) (p : Addr) : String := (attrsAt doc p).tag

/-- element.textContent: the concatenated text of the subtree, in document
order. -/
def textContentAt (doc : Doc) (p : Addr) : String :=
  String.join ((doc.filter (fun n => p.isPrefixOf n.addr)).map (fun n => n.attrs.ownText))

/-- querySelectorAll on a subtree root: proper descendants, in document
order. -/
def descendantNodes (doc : Doc) (p : Addr) : List DomNode :=
  doc.filter (fun n => p.isPrefixOf n.addr && n.addr != p)

/-- element.children of the element at p. -/
def childNodesOf (doc : Doc) (p : Addr) : List DomNode :=
  doc.filter (fun n => n.addr.length == p.length + 1 && p.isPrefixOf n.addr)

/-- The element, its parent, its grandparent, ..., up to the root []. -/
def ancestorsOrSelf (p : Addr) : List Addr := (List.inits p).reverse

def properAncestors (p : Addr) : List Addr := (ancestorsOrSelf p).drop 1

/-- element.closest(sel): nearest ancestor-or-self matching a predicate. -/
def closestBy (doc : Doc) (p : Addr) (pred : Attrs → Bool) : Option Addr :=
  (ancestorsOrSelf p).find? (fun q => pred (attrsAt doc q))

/-- document.getElementById: first element with the id, in document order. -/
def getElementById (doc : Doc) (idStr : String) : Option DomNode :=
  doc.find? (fun n => n.attrs.id == idStr)

/-- isVisible from the fill_form script (browser.py lines 1253-1271):
style display/visibility/opacity checks plus a non-degenerate rect. -/
def isVisibleFill (e : Attrs) : Bool :=
  if e.display == "none" || e.visibility == "hidden" || e.opacity == "0" then false
  else if e.rect.width == 0 || e.rect.height == 0 then false
  else true

/-- isVisible from the detect_form_fields / map_form_fields scripts
(browser.py lines 280-288 and 489-497, textually identical there):
display/visibility checks, offsetParent non-null, positive rect. -/
def isVisibleDetect (e : Attrs) : Bool :=
  e.display != "none" && e.visibility != "hidden" && !e.offsetParentNull &&
  decide (0 < e.rect.width) && decide (0 < e.rect.height)

/-- isInputElement from the fill_form script (lines 1233-1250). -/
def isInputElement (e : Attrs) : Bool :=
  e.tag == "INPUT" || e.tag == "TEXTAREA" || e.tag == "SELECT" ||
  e.role == "textbox" || e.role == "combobox" || e.role == "radio" || e.role == "checkbox" ||
  e.contenteditable == "true"

/-- The label-like elements scanned by strategies 1 and 2:
label, h1..h6, p, span, div, legend, [role="heading"]. -/
def isTextElementSel (e : Attrs) : Bool :=
  ["LABEL", "H1", "H2", "H3", "H4", "H5", "H6", "P", "SPAN", "DIV", "LEGEND"].contains e.tag ||
  e.role == "heading"

def textElems (doc : Doc) : List DomNode :=
  doc.filter (fun n => isTextElementSel n.attrs)

/-- The in-section input selector used by strategies 1 and 2:
input, textarea, select, [role="radio"], [role="checkbox"],
[contenteditable="true"]. -/
def isSectionInputSel (e : Attrs) : Bool :=
  ["INPUT", "TEXTAREA", "SELECT"].contains e.tag ||
  e.role == "radio" || e.role == "checkbox" || e.contenteditable == "true"

/-- input, textarea, select, [role="radio"] (findCommonContainer). -/
def isContainerInputSel (e : Attrs) : Bool :=
  ["INPUT", "TEXTAREA", "SELECT"].contains e.tag || e.role == "radio"

/-- input, textarea, select. -/
def isPlainInputSel (e : Attrs) : Bool :=
  ["INPUT", "TEXTAREA", "SELECT"].contains e.tag

/-- The boolean-keyword regex /yes|no|agree|disagree|accept|true|false/i
applied to the already lowercased descriptor: some alternative occurs as a
substring. -/
def booleanRegexTest (s : String) : Bool :=
  strContains s "yes" || strContains s "no" || strContains s "agree" ||
  strContains s "disagree" || strContains s "accept" || strContains s "true" ||
  strContains s "false"

/-- First walk of findCommonContainer (lines 1189-1217): explicit form
containers and form-group classes. -/
def isExplicitContainer (e : Attrs) : Bool :=
  e.tag == "FORM" || e.tag == "FIELDSET" ||
  e.classes.contains "form-group" || e.classes.contains "form-field" ||
  e.classes.contains "field-container" || e.classes.contains "input-group" ||
  e.role == "group"

/-- Google-Forms specific container classes (findCommonContainer). -/
def isGoogleContainer (e : Attrs) : Bool :=
  e.classes.contains "Qr7Oae" ||
  e.classes.contains "freebirdFormviewerViewItemsItemItem" ||
  e.classes.contains "geS5n"

/-- Heuristic container test of findCommonContainer: has text, contains an
input, and has fewer than 15 children. -/
def isHeuristicContainer (doc : Doc) (q : Addr) : Bool :=
  (strTrim (textContentAt doc q)) != "" &&
  (descendantNodes doc q).any (fun n => isContainerInputSel n.attrs) &&
  decide ((childNodesOf doc q).length < 15)

/-- The ancestors-or-self chain cut off at the first BODY tag. -/
def belowBodyChain (doc : Doc) (p : Addr) : List Addr :=
  (ancestorsOrSelf p).takeWhile (fun q => tagAt doc q != "BODY")

/-- findCommonContainer from the fill_form script (lines 1185-1230).
Walk up from the element looking for an explicit container, a Google-Forms
container, or a small text+input container; failing that, the nearest
ancestor-or-self containing a plain input; failing that, the parent. -/
def findCommonContainer (doc : Doc) (p : Addr) : Option Addr :=
  match (belowBodyChain doc p).find? (fun q =>
      let e := attrsAt doc q
      isExplicitContainer e || isGoogleContainer e || isHeuristicContainer doc q) with
  | some q => some q
  | none =>
    match (belowBodyChain doc p).find? (fun q =>
        (descendantNodes doc q).any (fun n => isPlainInputSel n.attrs)) with
    | some q => some q
    | none => if p = ([] : Addr) then none else some p.dropLast

/-- A candidate produced by one of the five strategies of findFormField. -/
structure Candidate where
  addr : Addr
  method : String
  score : Nat
deriving Repr, DecidableEq

/-- Stable insertion keeping descending key order: an element is placed
before the first element whose key it reaches; equal keys keep their
original relative order, which models the stable Array.prototype.sort with
comparator (a, b) => b.score - a.score. -/
def insertByDesc (key : α → Int) (x : α) : List α → List α
  | [] => [x]
  | y :: ys => if key y ≤ key x then x :: y :: ys else y :: insertByDesc key x ys

def sortByDesc (key : α → Int) : List α → List α
  | [] => []
  | x :: xs => insertByDesc key x (sortByDesc key xs)

/-- The first element of a list attaining the maximal key (the element a
stable descending sort puts first). -/
def firstArgMax (key : α → Int) : List α → Option α
  | [] => none
  | x :: xs =>
    match firstArgMax key xs with
    | none => some x
    | some y => if key y ≤ key x then some x else some y

/-- The addresses of the in-section inputs of a field section, in document
order (section.querySelectorAll of the strategy input selector). -/
def sectionInputs (doc : Doc) (s : Addr) : List Addr :=
  ((descendantNodes doc s).filter (fun n => isSectionInputSel n.attrs)).map (fun n => n.addr)

/-- Strategy 1 label-for short circuit (lines 908-915): a LABEL with a
for attribute whose target is an input element yields score 100 and
findFormField returns it immediately. -/
def labelForCand (doc : Doc) (e : Attrs) : Option Candidate :=
  if e.tag == "LABEL" && e.htmlFor != "" then
    match getElementById doc e.htmlFor with
    | some inp => if isInputElement inp.attrs then some ⟨inp.addr, "exact_label_match", 100⟩ else none
    | none => none
  else none

/-- The filter excluding radio/checkbox inputs used by strategy 1 for
multiple in-section inputs (lines 928-931). -/
def isNonChoiceInput (e : Attrs) : Bool :=
  !(["radio", "checkbox"].contains e.type) && e.role != "radio" && e.role != "checkbox"

/-- The in-section scoring of strategy 1 on an exact text match that did
not short-circuit (lines 917-941): single input 99, first
non-radio/checkbox input 95, first input 90. -/
def s1SectionPush (doc : Doc) (p : Addr) (acc : List Candidate) : List Candidate :=
  match findCommonContainer doc p with
  | none => acc
  | some s =>
    match sectionInputs doc s with
    | [] => acc
    | [q] => acc ++ [⟨q, "exact_text_match_single_input", 99⟩]
    | q :: _ :: _ =>
      match (sectionInputs doc s).filter (fun r => isNonChoiceInput (attrsAt doc r)) with
      | t :: _ => acc ++ [⟨t, "exact_text_match_multi_input", 95⟩]
      | [] => acc ++ [⟨q, "exact_text_match_fallback", 90⟩]

/-- Strategy 1 (lines 896-943): exact label text match.  Iterates the
label-like elements; on an exact (trimmed, lowercased) text match, either
short-circuits through label-for, or scores the inputs of the enclosing
field section.  The first component is the short-circuit result. -/
def strategy1Go (doc : Doc) (fieldLower : String) :
    List DomNode → List Candidate → Option Candidate × List Candidate
  | [], acc => (none, acc)
  | n :: ns, acc =>
    if !isVisibleFill n.attrs then strategy1Go doc fieldLower ns acc
    else if strLower (strTrim (textContentAt doc n.addr)) == fieldLower then
      match labelForCand doc n.attrs with
      | some c => (some c, acc ++ [c])
      | none => strategy1Go doc fieldLower ns (s1SectionPush doc n.addr acc)
    else strategy1Go doc fieldLower ns acc

def strategy1 (doc : Doc) (fieldLower : String) : Option Candidate × List Candidate :=
  strategy1Go doc fieldLower (textElems doc) []

/-- The heading test of strategy 2 (lines 956-958): h1-h6 tag, heading
role, or computed font weight at least 600. -/
def isHeadingElem (e : Attrs) : Bool :=
  ["H1", "H2", "H3", "H4", "H5", "H6"].contains e.tag || e.role == "heading" ||
  decide (600 ≤ e.fontWeight)

/-- Positional score of one input relative to the label rect in strategy 2
(lines 1001-1025): 1000 minus the vertical distance, plus 200 for any
horizontal overlap, plus 300 for a plain text input unless the descriptor
matches the boolean-keyword regex. -/
def posScore (doc : Doc) (fieldLower : String) (labelRect : Rect) (q : Addr) : Int :=
  let e := attrsAt doc q
  let ir := e.rect
  let verticalDist : Int := (ir.top - labelRect.bottom).natAbs
  let horizontalOverlap : Int := max 0 (min ir.right labelRect.right - max ir.left labelRect.left)
  let isTextField := e.tag == "INPUT" && !(["radio", "checkbox"].contains e.type)
  let isBooleanField := booleanRegexTest fieldLower
  let base : Int := (1000 - verticalDist) + (if 0 < horizontalOverlap then 200 else 0)
  if isTextField && !isBooleanField then base + 300 else base

/-- The body of one strategy-2 iteration once the label was accepted
(lines 960-1043). -/
def s2Consider (doc : Doc) (fieldLower : String) (n : DomNode) (acc : List Candidate) :
    List Candidate :=
  let isHeading := isHeadingElem n.attrs
  match findCommonContainer doc n.addr with
  | none => acc
  | some s =>
    let allInputs := sectionInputs doc s
    if allInputs.isEmpty then acc
    else
      let labelRect := n.attrs.rect
      let relevant0 := allInputs.filter (fun q =>
        let ir := (attrsAt doc q).rect
        decide (labelRect.bottom ≤ ir.top) ||
        (decide (labelRect.top ≤ ir.bottom) && decide (ir.top ≤ labelRect.bottom)))
      let relevant1 := if relevant0.isEmpty then allInputs else relevant0
      match relevant1.filter (fun q => isVisibleFill (attrsAt doc q)) with
      | [] => acc
      | [q] => acc ++ [⟨q, "single_field_section", if isHeading then 94 else 88⟩]
      | q0 :: q1 :: qs =>
        match sortByDesc (fun x => x.2)
            ((q0 :: q1 :: qs).map (fun q => (q, posScore doc fieldLower labelRect q))) with
        | [] => acc
        | best :: _ => acc ++ [⟨best.1, "positioned_field", if isHeading then 92 else 86⟩]

/-- Strategy 2 (lines 945-1045): visual proximity to a label whose text
contains the descriptor, skipped as soon as the accumulated candidates
hold a score above 90. -/
def strategy2Go (doc : Doc) (fieldLower : String) :
    List DomNode → List Candidate → List Candidate
  | [], acc => acc
  | n :: ns, acc =>
    let acc' :=
      if !isVisibleFill n.attrs then acc
      else if strContains (strLower (strTrim (textContentAt doc n.addr))) fieldLower &&
              !(acc.any (fun f => decide (90 < f.score))) then
        s2Consider doc fieldLower n acc
      else acc
    strategy2Go doc fieldLower ns acc'

/-- Strategy 3 (lines 1047-1081): direct attribute probing.  Eight
selectors are tried in order; each querySelector hit that is a visible
input element is appended.  The score is 85 for the exact attribute
selectors, lowered to 75 when the selector text contains "*=", and 98 for
the exact-id selector; the four substring selectors contain "*=" and so
score 75.  Selector syntax validity is not modelled: a descriptor that
would make the CSS parser throw simply finds no element here. -/
def strategy3Probes (fieldText : String) : List ((Attrs → Bool) × Nat) :=
  let exactScore : Nat := if strContains fieldText "*=" then 75 else 85
  [ (fun e => e.id == fieldText, 98)
  , (fun e => e.name == fieldText, exactScore)
  , (fun e => e.placeholder == fieldText, exactScore)
  , (fun e => e.ariaLabel == fieldText, exactScore)
  , (fun e => strContains (strLower e.id) (strLower fieldText), 75)
  , (fun e => strContains (strLower e.name) (strLower fieldText), 75)
  , (fun e => e.tag == "INPUT" && strContains (strLower e.placeholder) (strLower fieldText), 75)
  , (fun e => strContains (strLower e.ariaLabel) (strLower fieldText), 75) ]

def strategy3Step (doc : Doc) (acc : List Candidate) (probe : (Attrs → Bool) × Nat) :
    List Candidate :=
  match doc.find? (fun n => probe.1 n.attrs) with
  | some n =>
    if isInputElement n.attrs && isVisibleFill n.attrs then
      acc ++ [⟨n.addr, "direct_selector", probe.2⟩]
    else acc
  | none => acc

def strategy3 (doc : Doc) (fieldText : String) : List Candidate :=
  (strategy3Probes fieldText).foldl (strategy3Step doc) []

/-- The heading selector of strategy 4 (line 1085). -/
def isS4Heading (e : Attrs) : Bool :=
  e.classes.contains "M7eMe" || e.role == "heading" ||
  e.classes.contains "freebirdFormviewerViewItemsItemItemTitle" ||
  ["H1", "H2", "H3", "H4", "H5"].contains e.tag

/-- The container walk of strategy 4 (lines 1092-1098): up to the first
Google-Forms question container or the BODY element. -/
def s4Container (doc : Doc) (p : Addr) : Option Addr :=
  (ancestorsOrSelf p).find? (fun q =>
    let e := attrsAt doc q
    e.classes.contains "Qr7Oae" ||
    e.classes.contains "freebirdFormviewerViewItemsItemItem" ||
    e.tag == "BODY")

/-- The input selector of strategy 4 (line 1102):
.whsOnd, .rFrNMe input, [role="radio"], [role="checkbox"]; the descendant
combinator of the second alternative may be satisfied by any ancestor. -/
def googleInputsOf (doc : Doc) (container : Addr) : List Addr :=
  ((descendantNodes doc container).filter (fun n =>
    n.attrs.classes.contains "whsOnd" ||
    (n.attrs.tag == "INPUT" &&
      (properAncestors n.addr).any (fun r => (attrsAt doc r).classes.contains "rFrNMe")) ||
    n.attrs.role == "radio" || n.attrs.role == "checkbox")).map (fun n => n.addr)

def isRadioCheckboxInput (e : Attrs) : Bool :=
  e.type == "radio" || e.type == "checkbox" || e.role == "radio" || e.role == "checkbox"

def isS4TextPref (e : Attrs) : Bool :=
  e.type == "text" || e.type == "email" || e.tag == "TEXTAREA"

/-- The best-input choice of strategy 4 (lines 1104-1124): for a
boolean-keyword descriptor the first radio/checkbox-like input, otherwise
the first text-like input, in both cases falling back to the first
input. -/
def s4Pick (doc : Doc) (isBool : Bool) (inputs : List Addr) : Option Addr :=
  if isBool then
    match inputs.find? (fun q => isRadioCheckboxInput (attrsAt doc q)) with
    | some r => some r
    | none => inputs.head?
  else
    match inputs.find? (fun q => isS4TextPref (attrsAt doc q)) with
    | some r => some r
    | none => inputs.head?

def strategy4Step (doc : Doc) (fieldLower : String) (acc : List Candidate) (n : DomNode) :
    List Candidate :=
  if !isVisibleFill n.attrs then acc
  else if strContains (strLower (strTrim (textContentAt doc n.addr))) fieldLower then
    match s4Container doc n.addr with
    | none => acc
    | some cont =>
      let gi := googleInputsOf doc cont
      if gi.isEmpty then acc
      else
        match s4Pick doc (booleanRegexTest fieldLower) gi with
        | some best => acc ++ [⟨best, "google_form_pattern", 96⟩]
        | none => acc
  else acc

/-- Strategy 4 (lines 1083-1134): Google-Forms pattern match, score 96. -/
def strategy4 (doc : Doc) (fieldLower : String) : List Candidate :=
  (doc.filter (fun n => isS4Heading n.attrs)).foldl (strategy4Step doc fieldLower) []

/-- The label-like selector of extractPotentialFieldNames (line 1173),
which lacks [role="heading"]. -/
def isFieldNameSel (e : Attrs) : Bool :=
  ["LABEL", "H1", "H2", "H3", "H4", "H5", "H6", "P", "SPAN", "DIV", "LEGEND"].contains e.tag

/-- Strategy 5 (lines 1136-1158): positional fallback, score 60, only
reached when no other strategy produced a candidate. -/
def strategy5 (doc : Doc) (fieldLower : String) : List Candidate :=
  let allVisibleInputs :=
    ((doc.filter (fun n => isPlainInputSel n.attrs && isVisibleFill n.attrs)).map (fun n => n.addr))
  let fieldNames :=
    ((doc.filter (fun n => isFieldNameSel n.attrs)).filter (fun n =>
      isVisibleFill n.attrs && (strTrim (textContentAt doc n.addr)) != "")).map
      (fun n => (strTrim (textContentAt doc n.addr)))
  match fieldNames.findIdx? (fun nm =>
      (strLower nm) == fieldLower || strContains (strLower nm) fieldLower) with
  | some i =>
    match allVisibleInputs.get? i with
    | some q => [⟨q, "positional", 60⟩]
    | none => []
  | none => []

/-- The merged candidate list before sorting, in strategy order, assuming
strategy 1 did not short-circuit. -/
def mergedCands (doc : Doc) (fieldText : String) : List Candidate :=
  let fieldLower := (strLower fieldText)
  let a1 := (strategy1 doc fieldLower).2
  let a2 := strategy2Go doc fieldLower (textElems doc) a1
  let a3 := a2 ++ strategy3 doc fieldText
  let a4 := a3 ++ strategy4 doc fieldLower
  if a4.isEmpty then a4 ++ strategy5 doc fieldLower else a4

/-- findFormField (lines 892-1168): run the five strategies, short-circuit
on a score-100 label-for match, otherwise stable-sort all candidates by
descending score and take the first; none when no strategy matched. -/
def findFormField (doc : Doc) (fieldText : String) : Option Candidate :=
  match (strategy1 doc (strLower fieldText)).1 with
  | some c => some c
  | none => (sortByDesc (fun c => (c.score : Int)) (mergedCands doc fieldText)).head?

/-- A synthetic DOM event triggered by the scripts; dispatchEvent calls
and element.click() calls are recorded (the native events a click fans out
to are not expanded). -/
inductive Ev where
  | input
  | change
  | blur
  | click
deriving Repr, DecidableEq

/-- One option of a select element: its value property and its text. -/
structure OptionEntry where
  value : String
  text : String
deriving Repr, DecidableEq

/-- element.options of the select at p. -/
def selectOptsOf (doc : Doc) (p : Addr) : List OptionEntry :=
  ((descendantNodes doc p).filter (fun n => n.attrs.tag == "OPTION")).map
    (fun n => ⟨n.attrs.value, textContentAt doc n.addr⟩)

/-- The option test of the fill_form select branch (lines 1296-1298):
option text contains the value case-insensitively, or option value equals
it case-insensitively. -/
def fillSelectMatch (value : String) (o : OptionEntry) : Bool :=
  strContains (strLower o.text) (strLower value) || (strLower o.value) == (strLower value)

/-- Elements whose DOM interface defines a value property (the
element.value !== undefined test of line 1414). -/
def hasValueProp (e : Attrs) : Bool :=
  ["INPUT", "TEXTAREA", "SELECT", "BUTTON", "OPTION", "OUTPUT"].contains e.tag

def isCheckboxLike (e : Attrs) : Bool :=
  e.type == "checkbox" || e.role == "checkbox"

def isRadioLike (e : Attrs) : Bool :=
  e.type == "radio" || e.role == "radio"

/-- The checkbox branch of fill_form (lines 1311-1333): normalize the
value tokens and click only when the state must change; unknown tokens
always click. -/
def checkboxBranchEvents (checked : Bool) (value : String) : List Ev :=
  let v := (strLower value)
  if v == "true" || v == "yes" || v == "checked" || v == "on" then
    if !checked then [.click] else []
  else if v == "false" || v == "no" || v == "unchecked" || v == "off" then
    if checked then [.click] else []
  else [.click]

/-- Radio group resolution of fill_form (lines 1339-1356).  The Bool
records that the no-name no-role path already clicked the element once
before the group was formed. -/
def radioGroupOf (doc : Doc) (p : Addr) : List Addr × Bool :=
  let e := attrsAt doc p
  if e.name != "" then
    (((doc.filter (fun n => n.attrs.tag == "INPUT" && n.attrs.name == e.name)).map
      (fun n => n.addr)), false)
  else if e.role == "radio" then
    let container : Option Addr :=
      match closestBy doc p (fun a => a.role == "radiogroup") with
      | some c => some c
      | none =>
        match closestBy doc p (fun a => a.classes.contains "Qr7Oae") with
        | some c => some c
        | none => closestBy doc p (fun a => a.tag == "FORM")
    match container with
    | some c =>
      (((descendantNodes doc c).filter (fun n => n.attrs.role == "radio")).map
        (fun n => n.addr), false)
    | none => (((doc.filter (fun n => n.attrs.role == "radio")).map (fun n => n.addr)), false)
  else ([p], true)

/-- The label lookup for one radio of the group (lines 1374-1383). -/
def radioLabelOf (doc : Doc) (r : Addr) (valueLower : String) : Option Addr :=
  let e := attrsAt doc r
  if e.id != "" then
    (doc.find? (fun n => n.attrs.tag == "LABEL" && n.attrs.htmlFor == e.id)).map
      (fun n => n.addr)
  else
    match closestBy doc r (fun a => a.tag == "LABEL") with
    | some l => some l
    | none =>
      match r with
      | [] => none
      | _ =>
        ((descendantNodes doc r.dropLast).filter (fun n => n.attrs.tag == "LABEL")).find?
          (fun n => strContains (strLower (textContentAt doc n.addr)) valueLower) |>.map
          (fun n => n.addr)

/-- One radio of the group matches the requested value (lines 1366-1400):
by value equality, by associated label text containment, or by the text of
a Google-Forms toggle container. -/
def radioMatches (doc : Doc) (valueLower : String) (r : Addr) : Bool :=
  let e := attrsAt doc r
  (e.value != "" && (strLower e.value) == valueLower) ||
  (match radioLabelOf doc r valueLower with
   | some l => strContains (strLower (textContentAt doc l)) valueLower
   | none => false) ||
  (match closestBy doc r (fun a =>
      a.classes.contains "nWQGrd" || a.classes.contains "docssharedWizToggleLabeledContainer") with
   | some c => strContains (strLower (textContentAt doc c)) valueLower
   | none => false)

/-- The radio branch of fill_form (lines 1335-1410): resolve the group,
and for a non-trivial value search it by value/label/container text,
clicking the first match or falling back to the first group member;
otherwise click the element itself. -/
def radioBranchEvents (doc : Doc) (p : Addr) (value : String) : List Ev :=
  let gp := radioGroupOf doc p
  let pre : List Ev := if gp.2 then [.click] else []
  let vL := (strLower value)
  if decide (1 < gp.1.length) && value != "" && vL != "true" && vL != "yes" then
    match gp.1.find? (radioMatches doc vL) with
    | some _ => pre ++ [.click]
    | none => pre ++ [.click]
  else pre ++ [.click]

/-- The trailing event block of fill_form (lines 1430-1436): input for
non-select elements, then change, then blur. -/
def trailingEvents (tag : String) : List Ev :=
  (if tag == "SELECT" then [] else [.input]) ++ [.change, .blur]

/-- The outcome of one fill_form interaction: success flag, the events
triggered in order, the failure message, and the successive assignments to
element.value. -/
structure FillOutcome where
  success : Bool
  events : List Ev := []
  message : String := ""
  valueWrites : List String := []
deriving Repr, DecidableEq

/-- The interaction executor of fill_form (lines 1288-1444), entered on
the element the resolution step selected.  The select branch either sets
the value of the first matching option and dispatches change, or fails
before any event; every other branch runs its own steps and then the
trailing input/change/blur block. -/
def fillInteraction (doc : Doc) (p : Addr) (value : String) : FillOutcome :=
  let e := attrsAt doc p
  if e.tag == "SELECT" then
    match (selectOptsOf doc p).find? (fillSelectMatch value) with
    | some o =>
      { success := true, events := [.change] ++ trailingEvents e.tag, valueWrites := [o.value] }
    | none =>
      { success := false, events := [],
        message := "Option " ++ value ++ " not found in dropdown" }
  else
    let branch : List Ev × List String :=
      if isCheckboxLike e then (checkboxBranchEvents e.checked value, [])
      else if isRadioLike e then (radioBranchEvents doc p value, [])
      else if hasValueProp e then ([.input, .input], ["", value])
      else if e.contenteditable == "true" then ([.input], [])
      else ([], [])
    { success := true, events := branch.1 ++ trailingEvents e.tag, valueWrites := branch.2 }

/-- One entry of fill_form (lines 1273-1277 plus the executor): resolve
the descriptor, fail when nothing was found, otherwise interact. -/
def fillFormOne (doc : Doc) (fieldText value : String) : FillOutcome :=
  match findFormField doc fieldText with
  | none => { success := false, events := [], message := "Could not find field: " ++ fieldText }
  | some c => fillInteraction doc c.addr value

/-- The result of one check_checkbox run on a located checkbox: the DOM
checked state afterwards, the events triggered, and the checked flag of
the returned result (read after the state machine ran). -/
structure CheckboxOpResult where
  checkedAfter : Bool
  events : List Ev
  reportedChecked : Bool
deriving Repr, DecidableEq

/-- check_checkbox (lines 2124-2163): when the current state differs from
the requested one, assign checked, dispatch change, and then also call
click() for framework compatibility; click() toggles the checked property
of a checkbox, so the assignment is immediately inverted.  When the state
already agrees, nothing happens. -/
def checkCheckboxOp (checked : Bool) (check : Bool) : CheckboxOpResult :=
  if checked != check then
    let afterAssign := check
    let afterClick := !afterAssign
    { checkedAfter := afterClick, events := [.change, .click], reportedChecked := afterClick }
  else
    { checkedAfter := checked, events := [], reportedChecked := checked }

/-- What a Python result handler does with the callback payload: a list of
chat messages, or an AttributeError raised by calling result.get on
None. -/
inductive HandlerOutcome where
  | messages (ms : List String)
  | attrError
deriving Repr, DecidableEq

/-- The JSON-compatible result dictionary delivered to a handler,
abstracted to the keys the handlers read; the per-field chat formatting is
elided. -/
structure RDict where
  success : Bool := false
  message : String := ""
  field : String := ""
  method : String := ""
  score : Nat := 0
  fields : List String := []
  title : String := ""
deriving Repr, DecidableEq

/-- A handler is total on a null payload when it does not raise. -/
def totalOnNone (h : Option RDict → HandlerOutcome) : Prop :=
  h none ≠ HandlerOutcome.attrError

/-- The handler _handle_form_fill_result (lines 1457-1481): the only one guarding
against a None payload, which it reports as its own warning message. -/
def handleFormFillResult : Option RDict → HandlerOutcome
  | none => .messages ["Error processing form fill result: received None"]
  | some r =>
    if r.success then
      .messages ["Filled field " ++ r.field ++ " (found by " ++ r.method ++
        ") Match confidence: " ++ toString r.score ++ "/100"]
    else
      .messages ["Failed to fill field " ++ r.field ++ ": " ++ r.message]

/-- The handler _handle_detect_fields_result (lines 433-481): starts with
result.get("success"), so a None payload raises AttributeError. -/
def handleDetectFieldsResult : Option RDict → HandlerOutcome
  | none => .attrError
  | some r =>
    if r.success then
      if r.fields != [] then
        .messages ["Form detected on " ++ r.title]
      else
        .messages ["No form fields detected on this page."]
    else
      .messages ["Failed to detect form fields: " ++ r.message]

/-
  detect_form_fields (lines 274-431) and map_form_fields (lines 483-711)
  inject scripts whose helper functions isVisible, getLabelText and
  getFieldType are textually identical; they are therefore defined once
  below and shared by both embeddings.
-/

/-- getLabelText step 1 (lines 292-298): a label element targeting the id
of the element, when its text is non-empty. -/
def labelByFor (doc : Doc) (e : Attrs) : Option String :=
  if e.id != "" then
    match doc.find? (fun n => n.attrs.tag == "LABEL" && n.attrs.htmlFor == e.id) with
    | some lbl =>
      if (strTrim (textContentAt doc lbl.addr)) != "" then
        some (strTrim (textContentAt doc lbl.addr))
      else none
    | none => none
  else none

/-- The text of the subtree at lp with every input/select/textarea subtree
removed, as the clone-and-strip of getLabelText step 2 computes it. -/
def textContentStripped (doc : Doc) (lp : Addr) : String :=
  String.join ((doc.filter (fun n =>
    lp.isPrefixOf n.addr &&
    (ancestorsOrSelf n.addr).all (fun q =>
      !(lp.isPrefixOf q && q != lp) ||
      !(["INPUT", "SELECT", "TEXTAREA"].contains (attrsAt doc q).tag)))).map
    (fun n => n.attrs.ownText))

/-- getLabelText step 2 (lines 300-308): a wrapping label, its text with
the embedded form controls removed. -/
def labelByParent (doc : Doc) (p : Addr) : Option String :=
  match closestBy doc p (fun a => a.tag == "LABEL") with
  | some lp =>
    if (strTrim (textContentAt doc lp)) != "" then some (strTrim (textContentStripped doc lp))
    else none
  | none => none

/-- getLabelText step 3 (lines 310-326): the first child node of the
parent that is non-empty text or a non-form element with text.  The
leading text of the parent element stands for its direct text nodes. -/
def labelByNearby (doc : Doc) (p : Addr) : Option String :=
  match p with
  | [] => none
  | _ :: _ =>
    let par := p.dropLast
    if (strTrim (attrsAt doc par).ownText) != "" then some (strTrim (attrsAt doc par).ownText)
    else
      ((childNodesOf doc par).find? (fun n =>
        n.addr != p && !(["INPUT", "SELECT", "TEXTAREA", "BUTTON"].contains n.attrs.tag) &&
        (strTrim (textContentAt doc n.addr)) != "")).map
        (fun n => (strTrim (textContentAt doc n.addr)))

/-- getLabelText (lines 291-339, identical at 500-548): label-for, then
wrapping label, then nearby text, then aria-label, placeholder, and the
name/id fallback. -/
def getLabelText (doc : Doc) (p : Addr) : String :=
  let e := attrsAt doc p
  match labelByFor doc e with
  | some s => s
  | none =>
    match labelByParent doc p with
    | some s => s
    | none =>
      match labelByNearby doc p with
      | some s => s
      | none =>
        if e.ariaLabel != "" then e.ariaLabel
        else if e.placeholder != "" then e.placeholder
        else if e.name != "" then e.name
        else e.id

/-- getFieldType (lines 343-361, identical at 552-570). -/
def getFieldType (e : Attrs) : String :=
  if e.tag == "SELECT" then "select"
  else if e.tag == "TEXTAREA" then "textarea"
  else if e.tag == "INPUT" then (if e.type == "" then "text" else e.type)
  else if e.contenteditable == "true" then "contenteditable"
  else "unknown"

/-- The detection query selector (lines 365 and 639):
input:not([type="hidden"]), select, textarea, [contenteditable="true"]. -/
def isDetectTarget (e : Attrs) : Bool :=
  (e.tag == "INPUT" && e.type != "hidden") || e.tag == "SELECT" || e.tag == "TEXTAREA" ||
  e.contenteditable == "true"

/-- The radio options gathered for a named radio group of more than one
member (lines 384-396 and 658-670). -/
def radioOptionsOf (doc : Doc) (nm : String) : List OptionEntry :=
  let group := doc.filter (fun n =>
    n.attrs.tag == "INPUT" && n.attrs.type == "radio" && n.attrs.name == nm)
  if decide (1 < group.length) then
    group.map (fun r =>
      let l := getLabelText doc r.addr
      ⟨r.attrs.value, if l != "" then l else r.attrs.value⟩)
  else []

/-- The FieldMetadata record built by detect_form_fields (lines 400-412). -/
structure FormField where
  label : String
  name : String
  id : String
  type : String
  required : Bool
  placeholder : String
  options : List OptionEntry
  radioOptions : List OptionEntry
  hasValue : Bool
  selector : Option String
deriving Repr, DecidableEq

def mkFormField (doc : Doc) (n : DomNode) : FormField :=
  let e := n.attrs
  let labelText := getLabelText doc n.addr
  let fieldType := getFieldType e
  { label := labelText
  , name := e.name
  , id := e.id
  , type := fieldType
  , required := e.required || e.ariaRequired == "true"
  , placeholder := e.placeholder
  , options := if e.tag == "SELECT" then selectOptsOf doc n.addr else []
  , radioOptions := if fieldType == "radio" && e.name != "" then radioOptionsOf doc e.name else []
  , hasValue := e.value != ""
  , selector :=
      if e.id != "" then some ("#" ++ e.id)
      else if e.name != "" then some ("[name=\"" ++ e.name ++ "\"]")
      else none }

/-- The forEach body of detect_form_fields (lines 367-414): skip invisible
elements, then keep only fields carrying at least one identification. -/
def detectEntry (doc : Doc) (n : DomNode) : Option FormField :=
  if !isVisibleDetect n.attrs then none
  else
    let f := mkFormField doc n
    if f.label != "" || n.attrs.name != "" || n.attrs.id != "" || n.attrs.placeholder != "" then
      some f
    else none

/-- The field list returned by detect_form_fields. -/
def detectFields (doc : Doc) : List FormField :=
  (doc.filter (fun n => isDetectTarget n.attrs)).filterMap (detectEntry doc)

/-- The index (starting at 1) of the element among the preceding siblings
sharing its tag name, as the getXPath sibling walk counts it. -/
def xpathIndexOf (doc : Doc) (q : Addr) : Nat :=
  match q with
  | [] => 1
  | _ :: _ =>
    1 + doc.countP (fun n =>
      n.addr.length == q.length && q.dropLast.isPrefixOf n.addr &&
      decide (n.addr.getLastD 0 < q.getLastD 0) && n.attrs.tag == tagAt doc q)

/-- One path segment of getXPath: the lowercased tag with an [N] qualifier
only when N exceeds 1. -/
def xpathSegment (doc : Doc) (q : Addr) : String :=
  let idx := xpathIndexOf doc q
  "/" ++ strLower (tagAt doc q) ++ (if 1 < idx then "[" ++ toString idx ++ "]" else "")

/-- The while loop of getXPath (lines 580-597), walking the reversed
address of the current element: prepend the segment of the current
element, stop when the parent is the BODY element or the root has been
processed. -/
def getXPathGo (doc : Doc) : List Nat → String → String
  | [], path => xpathSegment doc [] ++ path
  | i :: rp, path =>
    let path' := xpathSegment doc ((i :: rp).reverse) ++ path
    if tagAt doc rp.reverse == "BODY" then path' else getXPathGo doc rp path'

/-- getXPath, first variant (lines 573-600 of map_form_fields, repeated
verbatim in select_option at 1489-1516, check_radio at 1658-1685,
check_checkbox at 2037-2064, click_custom_element at 2206-2233 and
submit_form at 2479-2511): an id short-circuit, otherwise the positional
path whose parent walk breaks at the BODY element.  The copies inside
click_element and debug_element differ (no BODY cutoff) and are embedded
separately as getXPathClick below. -/
def getXPath (doc : Doc) (p : Addr) : String :=
  if (attrsAt doc p).id != "" then "//*[@id=\"" ++ (attrsAt doc p).id ++ "\"]"
  else
    let path := getXPathGo doc p.reverse ""
    if path == "" then "/unknown" else path

/-- The chain of addresses the getXPath loop visits, leaf first. -/
def xpathChain (doc : Doc) : List Nat → List Addr
  | [] => [[]]
  | i :: rp =>
    ((i :: rp).reverse) :: (if tagAt doc rp.reverse == "BODY" then [] else xpathChain doc rp)

/-- The path the specification describes: one segment per ancestor-or-self
strictly below the BODY element, outermost first. -/
def xpathByAncestors (doc : Doc) (p : Addr) : String :=
  String.join ((((ancestorsOrSelf p).takeWhile (fun q => tagAt doc q != "BODY")).reverse).map
    (xpathSegment doc))

/-- The while loop of the getXPath variant used by click_element (lines
2405-2436) and debug_element (lines 2723-2753): identical segment
construction, but no BODY cutoff - it walks parentNode for as long as the
node is an element.  The snapshot is rooted at the BODY element, whose
absent parent plays the role of the document node, so the model's walk
ends after emitting the body segment; in a live document the loop also
emits an html segment above it before reaching the document node. -/
def getXPathClickGo (doc : Doc) : List Nat → String → String
  | [], path => xpathSegment doc [] ++ path
  | i :: rp, path => getXPathClickGo doc rp (xpathSegment doc ((i :: rp).reverse) ++ path)

/-- The getXPath variant of click_element and debug_element: the same id
short-circuit, then the uncut positional path (the source returns the bare
accumulated path, with no fallback string). -/
def getXPathClick (doc : Doc) (p : Addr) : String :=
  if (attrsAt doc p).id != "" then "//*[@id=\"" ++ (attrsAt doc p).id ++ "\"]"
  else getXPathClickGo doc p.reverse ""

/-- One segment per ancestor-or-self, the root included, outermost
first. -/
def xpathByAllAncestors (doc : Doc) (p : Addr) : String :=
  String.join (((ancestorsOrSelf p).reverse).map (xpathSegment doc))

/-- getExampleValue (lines 602-635): an example value keyed off the field
type and label keywords. -/
def getExampleValue (f : FormField) : String :=
  let label := strLower (if f.label != "" then f.label else if f.name != "" then f.name else f.id)
  if f.type == "text" || f.type == "textarea" then
    if strContains label "name" then "John Doe"
    else if strContains label "email" then "example@email.com"
    else if strContains label "phone" then "555-123-4567"
    else if strContains label "address" then "123 Main Street"
    else "Sample text"
  else if f.type == "select" then
    match f.options with
    | o :: _ => o.text
    | [] => "Select an option"
  else if f.type == "radio" then
    match f.radioOptions with
    | o :: _ => o.text
    | [] => "Select an option"
  else if f.type == "checkbox" then "true"
  else if f.type == "email" then "example@email.com"
  else if f.type == "number" then "42"
  else if f.type == "date" then "2025-04-27"
  else "Sample value"

/-- The FieldMetadata record built by map_form_fields (lines 672-692): the
detection record plus the xpath and example attributes. -/
structure MappedField where
  label : String
  name : String
  id : String
  type : String
  required : Bool
  placeholder : String
  options : List OptionEntry
  radioOptions : List OptionEntry
  hasValue : Bool
  selector : Option String
  xpath : String
  exampleVal : String
deriving Repr, DecidableEq

/-- Forgetting the two attributes map_form_fields adds. -/
def MappedField.toFormField (m : MappedField) : FormField :=
  { label := m.label, name := m.name, id := m.id, type := m.type, required := m.required
  , placeholder := m.placeholder, options := m.options, radioOptions := m.radioOptions
  , hasValue := m.hasValue, selector := m.selector }

/-- The record map_form_fields builds for one element: the detection
record extended with the xpath and example attributes. -/
def mkMappedField (doc : Doc) (n : DomNode) : MappedField :=
  let f := mkFormField doc n
  { label := f.label, name := f.name, id := f.id, type := f.type
  , required := f.required, placeholder := f.placeholder, options := f.options
  , radioOptions := f.radioOptions, hasValue := f.hasValue, selector := f.selector
  , xpath := getXPath doc n.addr, exampleVal := getExampleValue f }

/-- The forEach body of map_form_fields (lines 641-694). -/
def mapEntry (doc : Doc) (n : DomNode) : Option MappedField :=
  if !isVisibleDetect n.attrs then none
  else
    let f := mkFormField doc n
    if f.label != "" || n.attrs.name != "" || n.attrs.id != "" || n.attrs.placeholder != "" then
      some (mkMappedField doc n)
    else none

/-- The field list returned by map_form_fields. -/
def mapFields (doc : Doc) : List MappedField :=
  (doc.filter (fun n => isDetectTarget n.attrs)).filterMap (mapEntry doc)

/-
  Concrete DOM snapshots used to instantiate the theorems.
-/

/-- A page with a question block (a div whose text is exactly "color"
above two radios) and, elsewhere, a text input whose id is "color". -/
def c1doc : Doc :=
  [ ⟨[], { tag := "BODY" }⟩
  , ⟨[0], { tag := "DIV" }⟩
  , ⟨[0, 0], { tag := "DIV", ownText := "color" }⟩
  , ⟨[0, 1], { tag := "INPUT", type := "radio", name := "c", value := "red" }⟩
  , ⟨[0, 2], { tag := "INPUT", type := "radio", name := "c", value := "blue" }⟩
  , ⟨[1], { tag := "DIV" }⟩
  , ⟨[1, 0], { tag := "INPUT", type := "text", id := "color" }⟩ ]

/-- A section whose label text is exactly "agree to the terms" and which
contains both a text input and a checkbox. -/
def c3doc : Doc :=
  [ ⟨[], { tag := "BODY" }⟩
  , ⟨[0], { tag := "DIV" }⟩
  , ⟨[0, 0], { tag := "DIV", ownText := "agree to the terms" }⟩
  , ⟨[0, 1], { tag := "INPUT", type := "text" }⟩
  , ⟨[0, 2], { tag := "INPUT", type := "checkbox" }⟩ ]

/-- Scenario B of the specification: a div wrapping a span label and a
single input. -/
def bdoc : Doc :=
  [ ⟨[], { tag := "BODY" }⟩
  , ⟨[0], { tag := "DIV" }⟩
  , ⟨[0, 0], { tag := "SPAN", ownText := "Full Name" }⟩
  , ⟨[0, 1], { tag := "INPUT", type := "text" }⟩ ]

/-- Scenario A of the specification: an explicit label-for pair. -/
def adoc : Doc :=
  [ ⟨[], { tag := "BODY" }⟩
  , ⟨[0], { tag := "LABEL", htmlFor := "em", ownText := "Email" }⟩
  , ⟨[1], { tag := "INPUT", type := "text", id := "em" }⟩ ]

/-- Nested elements without ids, for the locator builder. -/
def xdoc : Doc :=
  [ ⟨[], { tag := "BODY" }⟩
  , ⟨[0], { tag := "DIV" }⟩
  , ⟨[0, 0], { tag := "SPAN" }⟩
  , ⟨[0, 1], { tag := "SPAN" }⟩
  , ⟨[1], { tag := "DIV" }⟩ ]

/-
  Helper lemmas about the merge step.
-/

theorem sortByDesc_head {α : Type} (key : α → Int) (l : List α) :
    (sortByDesc key l).head? = firstArgMax key l := by
  induction l with
  | nil => rfl
  | cons x xs ih =>
    rw [sortByDesc, firstArgMax]
    cases h : sortByDesc key xs with
    | nil =>
      rw [h] at ih
      rw [← ih]
      simp [insertByDesc]
    | cons y ys =>
      rw [h] at ih
      rw [← ih]
      simp only [insertByDesc, List.head?_cons]
      by_cases hk : key y ≤ key x <;> simp [hk]

theorem firstArgMax_eq_none {α : Type} {key : α → Int} {l : List α} :
    firstArgMax key l = none ↔ l = [] := by
  cases l with
  | nil => simp [firstArgMax]
  | cons x xs =>
    rw [firstArgMax]
    cases firstArgMax key xs with
    | none => simp
    | some y =>
      by_cases hk : key y ≤ key x <;> simp [hk]

theorem firstArgMax_mem {α : Type} {key : α → Int} {l : List α} {m : α}
    (h : firstArgMax key l = some m) : m ∈ l := by
  induction l with
  | nil => simp [firstArgMax] at h
  | cons x xs ih =>
    rw [firstArgMax] at h
    cases h2 : firstArgMax key xs with
    | none =>
      rw [h2] at h
      simp only [Option.some.injEq] at h
      subst h
      exact List.mem_cons_self _ _
    | some y =>
      rw [h2] at h
      by_cases hk : key y ≤ key x
      · simp only [hk, if_pos] at h
        simp only [Option.some.injEq] at h
        subst h
        exact List.mem_cons_self _ _
      · simp only [hk, if_neg, not_false_iff] at h
        simp only [Option.some.injEq] at h
        subst h
        exact List.mem_cons_of_mem _ (ih h2)

theorem firstArgMax_le {α : Type} {key : α → Int} {l : List α} {m : α}
    (h : firstArgMax key l = some m) : ∀ y ∈ l, key y ≤ key m := by
  induction l generalizing m with
  | nil => simp [firstArgMax] at h
  | cons x xs ih =>
    rw [firstArgMax] at h
    cases h2 : firstArgMax key xs with
    | none =>
      rw [h2] at h
      simp only [Option.some.injEq] at h
      subst h
      have hxs : xs = [] := firstArgMax_eq_none.mp h2
      subst hxs
      intro y hy
      simp only [List.mem_singleton] at hy
      subst hy
      exact le_refl _
    | some z =>
      rw [h2] at h
      by_cases hk : key z ≤ key x
      · simp only [hk, if_pos] at h
        simp only [Option.some.injEq] at h
        subst h
        intro y hy
        rcases List.mem_cons.mp hy with rfl | hy'
        · exact le_refl _
        · exact le_trans (ih h2 y hy') hk
      · simp only [hk, if_neg, not_false_iff] at h
        simp only [Option.some.injEq] at h
        subst h
        intro y hy
        rcases List.mem_cons.mp hy with rfl | hy'
        · exact le_of_lt (lt_of_not_le hk)
        · exact ih h2 y hy'

/-- When the left block holds a candidate reaching the bound and every
right-block candidate stays strictly below it, the first argument of
maximal key lies in the left block. -/
theorem firstArgMax_mem_left {α : Type} {key : α → Int} {l1 l2 : List α} {b : Int}
    (h1 : ∃ c ∈ l1, b ≤ key c) (h2 : ∀ c ∈ l2, key c < b) :
    ∃ m ∈ l1, firstArgMax key (l1 ++ l2) = some m := by
  obtain ⟨c, hc, hbc⟩ := h1
  cases hm : firstArgMax key (l1 ++ l2) with
  | none =>
    rw [firstArgMax_eq_none] at hm
    rcases List.append_eq_nil.mp hm with ⟨hl1, _⟩
    subst hl1
    simp at hc
  | some m =>
    have hmem := firstArgMax_mem hm
    have hle := firstArgMax_le hm
    have hbm : b ≤ key m := le_trans hbc (hle c (List.mem_append.mpr (Or.inl hc)))
    rcases List.mem_append.mp hmem with h | h
    · exact ⟨m, h, rfl⟩
    · exact absurd (h2 m h) (not_lt.mpr hbm)

/-
  Score-range lemmas for the five strategies.
-/

theorem foldl_cands_invariant_mem {β : Type} (P : Candidate → Prop)
    (step : List Candidate → β → List Candidate) :
    ∀ (bs : List β), (∀ acc b, b ∈ bs → ∃ l, step acc b = acc ++ l ∧ ∀ c ∈ l, P c) →
    ∀ (acc : List Candidate), (∀ c ∈ acc, P c) → ∀ c ∈ bs.foldl step acc, P c := by
  intro bs
  induction bs with
  | nil => intro _ acc hacc c hc; rw [List.foldl_nil] at hc; exact hacc c hc
  | cons b bs ih =>
    intro hstep acc hacc
    rw [List.foldl_cons]
    obtain ⟨l, hl, hP⟩ := hstep acc b (List.mem_cons_self _ _)
    rw [hl]
    exact ih (fun acc' b' hb' => hstep acc' b' (List.mem_cons_of_mem _ hb')) _
      (fun c hc => (List.mem_append.mp hc).elim (hacc c) (hP c))

theorem s1SectionPush_decomp (doc : Doc) (p : Addr) (acc : List Candidate) :
    ∃ l, s1SectionPush doc p acc = acc ++ l ∧ ∀ c ∈ l, c.score ≤ 99 := by
  unfold s1SectionPush
  split
  · exact ⟨[], by simp, by simp⟩
  · split
    · exact ⟨[], by simp, by simp⟩
    · exact ⟨[_], rfl, by intro c hc; simp only [List.mem_singleton] at hc; subst hc; norm_num⟩
    · split
      · exact ⟨[_], rfl, by intro c hc; simp only [List.mem_singleton] at hc; subst hc; norm_num⟩
      · exact ⟨[_], rfl, by intro c hc; simp only [List.mem_singleton] at hc; subst hc; norm_num⟩

theorem strategy1Go_score_le (doc : Doc) (fL : String) :
    ∀ (ns : List DomNode) (acc res : List Candidate),
      (∀ c ∈ acc, c.score ≤ 99) →
      strategy1Go doc fL ns acc = (none, res) →
      ∀ c ∈ res, c.score ≤ 99 := by
  intro ns
  induction ns with
  | nil =>
    intro acc res hacc h
    rw [strategy1Go] at h
    simp only [Prod.mk.injEq] at h
    rw [← h.2]
    exact hacc
  | cons n ns ih =>
    intro acc res hacc h
    rw [strategy1Go] at h
    by_cases h1 : (!isVisibleFill n.attrs) = true
    · rw [if_pos h1] at h
      exact ih acc res hacc h
    · rw [if_neg h1] at h
      by_cases h2 : (strLower (strTrim (textContentAt doc n.addr)) == fL) = true
      · rw [if_pos h2] at h
        cases hlf : labelForCand doc n.attrs with
        | some c => rw [hlf] at h; simp at h
        | none =>
          rw [hlf] at h
          obtain ⟨l, hl, hb⟩ := s1SectionPush_decomp doc n.addr acc
          rw [hl] at h
          exact ih _ res
            (fun c hc => (List.mem_append.mp hc).elim (hacc c) (hb c)) h
      · rw [if_neg h2] at h
        exact ih acc res hacc h

theorem s2Consider_decomp (doc : Doc) (fL : String) (n : DomNode) (acc : List Candidate) :
    ∃ l, s2Consider doc fL n acc = acc ++ l ∧ ∀ c ∈ l, c.score ≤ 94 := by
  unfold s2Consider
  split
  · exact ⟨[], by simp, by simp⟩
  · dsimp only
    split
    · exact ⟨[], by simp, by simp⟩
    · split
      · exact ⟨[], by simp, by simp⟩
      · refine ⟨[_], rfl, ?_⟩
        intro c hc
        simp only [List.mem_singleton] at hc
        subst hc
        dsimp only
        split <;> norm_num
      · split
        · exact ⟨[], by simp, by simp⟩
        · refine ⟨[_], rfl, ?_⟩
          intro c hc
          simp only [List.mem_singleton] at hc
          subst hc
          dsimp only
          split <;> norm_num

theorem strategy2Go_decomp (doc : Doc) (fL : String) :
    ∀ (ns : List DomNode) (acc : List Candidate),
      ∃ l, strategy2Go doc fL ns acc = acc ++ l ∧ ∀ c ∈ l, c.score ≤ 94 := by
  intro ns
  induction ns with
  | nil => intro acc; exact ⟨[], by rw [strategy2Go]; simp, by simp⟩
  | cons n ns ih =>
    intro acc
    rw [strategy2Go]
    by_cases h1 : (!isVisibleFill n.attrs) = true
    · rw [if_pos h1]; exact ih acc
    · rw [if_neg h1]
      by_cases h2 : (strContains (strLower (strTrim (textContentAt doc n.addr))) fL &&
          !(acc.any (fun f => decide (90 < f.score)))) = true
      · rw [if_pos h2]
        obtain ⟨l0, hl0, hb0⟩ := s2Consider_decomp doc fL n acc
        rw [hl0]
        obtain ⟨l1, hl1, hb1⟩ := ih (acc ++ l0)
        rw [hl1, List.append_assoc]
        exact ⟨l0 ++ l1, rfl,
          fun c hc => (List.mem_append.mp hc).elim (hb0 c) (hb1 c)⟩
      · rw [if_neg h2]; exact ih acc

theorem strategy3Probes_bound (ft : String) :
    ∀ pr ∈ strategy3Probes ft, pr.2 ≤ 98 := by
  intro pr hpr
  unfold strategy3Probes at hpr
  by_cases hx : strContains ft "*=" = true <;>
    simp only [hx, if_true, if_false, Bool.false_eq_true, ite_true, ite_false,
      List.mem_cons, List.not_mem_nil, or_false] at hpr <;>
    rcases hpr with rfl | rfl | rfl | rfl | rfl | rfl | rfl | rfl <;> norm_num

theorem strategy3_score_le (doc : Doc) (ft : String) :
    ∀ c ∈ strategy3 doc ft, c.score ≤ 98 := by
  unfold strategy3
  refine foldl_cands_invariant_mem _ _ _ ?_ _ (by simp)
  intro acc probe hp
  unfold strategy3Step
  cases doc.find? (fun n => probe.1 n.attrs) with
  | none => exact ⟨[], by simp, by simp⟩
  | some n =>
    dsimp only
    by_cases hv : (isInputElement n.attrs && isVisibleFill n.attrs) = true
    · refine ⟨[⟨n.addr, "direct_selector", probe.2⟩], by rw [if_pos hv], ?_⟩
      intro c hc
      simp only [List.mem_singleton] at hc
      subst hc
      exact strategy3Probes_bound ft probe hp
    · rw [if_neg hv]
      exact ⟨[], by simp, by simp⟩

theorem strategy4_score_eq (doc : Doc) (fL : String) :
    ∀ c ∈ strategy4 doc fL, c.score = 96 := by
  unfold strategy4
  refine foldl_cands_invariant_mem _ _ _ ?_ _ (by simp)
  intro acc n _
  unfold strategy4Step
  split
  · exact ⟨[], by simp, by simp⟩
  · split
    · split
      · exact ⟨[], by simp, by simp⟩
      · dsimp only
        split
        · exact ⟨[], by simp, by simp⟩
        · split
          · refine ⟨[_], rfl, ?_⟩
            intro c hc
            simp only [List.mem_singleton] at hc
            subst hc
            rfl
          · exact ⟨[], by simp, by simp⟩
    · exact ⟨[], by simp, by simp⟩

theorem strategy5_score_eq (doc : Doc) (fL : String) :
    ∀ c ∈ strategy5 doc fL, c.score = 60 := by
  intro c hc
  unfold strategy5 at hc
  dsimp only at hc
  split at hc
  · split at hc
    · simp only [List.mem_singleton] at hc
      subst hc
      rfl
    · simp at hc
  · simp at hc

/-- When strategy 1 does not short-circuit, the merged candidate list is
its list followed by candidates of the remaining strategies, none of which
scores above 98. -/
theorem mergedCands_decomp (doc : Doc) (ft : String) :
    ∃ rest, mergedCands doc ft = (strategy1 doc (strLower ft)).2 ++ rest ∧
      ∀ c ∈ rest, (c.score : Int) < 99 := by
  unfold mergedCands
  obtain ⟨l2, hl2, hb2⟩ := strategy2Go_decomp doc (strLower ft) (textElems doc)
    (strategy1 doc (strLower ft)).2
  have hb3 := strategy3_score_le doc ft
  have hb4 := strategy4_score_eq doc (strLower ft)
  have hb5 := strategy5_score_eq doc (strLower ft)
  dsimp only
  rw [hl2]
  have hbound : ∀ c ∈ l2 ++ strategy3 doc ft ++ strategy4 doc (strLower ft),
      (c.score : Int) < 99 := by
    intro c hc
    rcases List.mem_append.mp hc with hc' | hc4
    · rcases List.mem_append.mp hc' with hc2 | hc3
      · have := hb2 c hc2; omega
      · have := hb3 c hc3; omega
    · have := hb4 c hc4; omega
  by_cases hemp :
      ((strategy1 doc (strLower ft)).2 ++ l2 ++ strategy3 doc ft ++
        strategy4 doc (strLower ft)).isEmpty = true
  · rw [if_pos hemp]
    refine ⟨l2 ++ strategy3 doc ft ++ strategy4 doc (strLower ft) ++ strategy5 doc (strLower ft),
      by simp [List.append_assoc], ?_⟩
    intro c hc
    rcases List.mem_append.mp hc with hc' | hc5
    · exact hbound c hc'
    · have := hb5 c hc5; omega
  · rw [if_neg hemp]
    exact ⟨l2 ++ strategy3 doc ft ++ strategy4 doc (strLower ft),
      by simp [List.append_assoc], hbound⟩

/-
  Claim theorems.
-/

/-- C1 (counterexample).  On c1doc with descriptor "color", strategy 1
produces candidates (both scored 90, method exact_text_match_fallback)
yet the merged ranking selects the strategy 3 exact-id candidate scored
98, so a strategy 1 candidate is not always chosen over strategies 2-5. -/
theorem c1_counterexample :
    (strategy1 c1doc "color").1 = none ∧
    (strategy1 c1doc "color").2.isEmpty = false ∧
    ((strategy1 c1doc "color").2.all (fun c => c.method == "exact_text_match_fallback" &&
      c.score == 90)) = true ∧
    findFormField c1doc "color" = some ⟨[1, 0], "direct_selector", 98⟩ ∧
    ((strategy1 c1doc "color").2.contains ⟨[1, 0], "direct_selector", 98⟩) = false := by
  refine ⟨by decide, by decide, by decide, by decide, by decide⟩

/-- C1 (amended).  A strategy 1 label-for match (score 100) short-circuits
and always wins; whenever strategy 1 holds a candidate scoring at least 99
the winner comes from strategy 1, because strategies 2-5 never exceed 98;
in general the winner is the first candidate of maximal score in the
strategy-ordered concatenation, so equal scores are resolved in favour of
the earlier strategy (the stable sort of the merge step). -/
theorem c1_strategy_priority (doc : Doc) (fieldText : String) :
    (∀ c, (strategy1 doc (strLower fieldText)).1 = some c →
      findFormField doc fieldText = some c) ∧
    ((strategy1 doc (strLower fieldText)).1 = none →
      findFormField doc fieldText =
        firstArgMax (fun c => (c.score : Int)) (mergedCands doc fieldText)) ∧
    ((strategy1 doc (strLower fieldText)).1 = none →
      (∃ c ∈ (strategy1 doc (strLower fieldText)).2, 99 ≤ c.score) →
      ((findFormField doc fieldText).elim false
        (fun c => (strategy1 doc (strLower fieldText)).2.contains c)) = true) := by
  refine ⟨?_, ?_, ?_⟩
  · intro c hc
    unfold findFormField
    rw [hc]
  · intro h1
    unfold findFormField
    rw [h1]
    exact sortByDesc_head _ _
  · intro h1 hex
    obtain ⟨rest, hdec, hb⟩ := mergedCands_decomp doc fieldText
    obtain ⟨c, hc, hc99⟩ := hex
    have hdom := @firstArgMax_mem_left Candidate (fun c => (c.score : Int))
      (strategy1 doc (strLower fieldText)).2 rest 99
      ⟨c, hc, by show (99 : Int) ≤ (c.score : Int); exact_mod_cast hc99⟩ hb
    obtain ⟨m, hm, hfam⟩ := hdom
    have hff : findFormField doc fieldText = some m := by
      unfold findFormField
      rw [h1, sortByDesc_head, hdec]
      exact hfam
    rw [hff]
    exact List.elem_iff.mpr hm

/-- C1 (witness).  On the scenario-B page, strategy 1 holds a score-99
candidate and the winner indeed comes from strategy 1. -/
theorem c1_strategy_priority_witness :
    (strategy1 bdoc (strLower "Full Name")).1 = none ∧
    ((findFormField bdoc "Full Name").elim false
      (fun c => (strategy1 bdoc (strLower "Full Name")).2.contains c)) = true ∧
    findFormField bdoc "Full Name" =
      firstArgMax (fun c => (c.score : Int)) (mergedCands bdoc "Full Name") := by
  refine ⟨by decide, (c1_strategy_priority bdoc "Full Name").2.2 (by decide)
    ⟨⟨[0, 1], "exact_text_match_single_input", 99⟩, by decide, by decide⟩,
    (c1_strategy_priority bdoc "Full Name").2.1 (by decide)⟩

/-- C2 (code bug).  For a checkbox that starts unchecked,
checkCheckbox(sel, true) assigns checked, dispatches change, and then also
calls click(), which toggles the checkbox back to unchecked: the first
call already ends with checked=false and reports checked:false, and a
second call changes state and triggers events again, so two calls leave
checked=false instead of true.  Only a checkbox that was already checked
behaves as the claim states. -/
theorem c2_checkbox_click_toggles :
    (checkCheckboxOp false true).checkedAfter = false ∧
    (checkCheckboxOp false true).events = [Ev.change, Ev.click] ∧
    (checkCheckboxOp (checkCheckboxOp false true).checkedAfter true).checkedAfter = false ∧
    (checkCheckboxOp (checkCheckboxOp false true).checkedAfter true).events =
      [Ev.change, Ev.click] ∧
    (checkCheckboxOp (checkCheckboxOp false true).checkedAfter true).reportedChecked = false ∧
    (checkCheckboxOp true true).checkedAfter = true ∧
    (checkCheckboxOp true true).events = [] ∧
    (checkCheckboxOp true true).reportedChecked = true := by
  decide

/-- C3 (counterexample).  The descriptor "agree to the terms" matches the
boolean-keyword regex, its field section holds a text input and a
checkbox, and resolution selects the text input (strategy 1 exact match,
score 95), not the checkbox. -/
theorem c3_counterexample :
    booleanRegexTest "agree to the terms" = true ∧
    findCommonContainer c3doc [0, 0] = some [0] ∧
    sectionInputs c3doc [0] = [[0, 1], [0, 2]] ∧
    (attrsAt c3doc [0, 1]).type = "text" ∧
    (attrsAt c3doc [0, 2]).type = "checkbox" ∧
    findFormField c3doc "agree to the terms" =
      some ⟨[0, 1], "exact_text_match_multi_input", 95⟩ := by
  refine ⟨by decide, by decide, by decide, by decide, by decide, by decide⟩

/-- C3 (amended).  The boolean-keyword bias exists only inside strategy 4,
whose input choice prefers the first radio/checkbox-like input for a
boolean descriptor, and inside strategy 2, where a boolean descriptor
merely withholds the +300 text-input bonus so the purely positional score
decides; strategy 1 ignores the keyword and prefers the text input. -/
theorem c3_boolean_bias_scope (doc : Doc) (fieldLower : String) (inputs : List Addr)
    (labelRect : Rect) (q : Addr) :
    (booleanRegexTest fieldLower = true →
      (∃ r ∈ inputs, isRadioCheckboxInput (attrsAt doc r) = true) →
      s4Pick doc (booleanRegexTest fieldLower) inputs =
        inputs.find? (fun q => isRadioCheckboxInput (attrsAt doc q)) ∧
      ((inputs.find? (fun q => isRadioCheckboxInput (attrsAt doc q))).elim false
        (fun r => isRadioCheckboxInput (attrsAt doc r))) = true) ∧
    (booleanRegexTest fieldLower = true →
      posScore doc fieldLower labelRect q =
        (1000 - (((attrsAt doc q).rect.top - labelRect.bottom).natAbs : Int)) +
          (if 0 < max 0 (min (attrsAt doc q).rect.right labelRect.right -
              max (attrsAt doc q).rect.left labelRect.left) then 200 else 0)) := by
  constructor
  · intro hb hex
    rw [hb]
    obtain ⟨r, hr, hrc⟩ := hex
    have hsome : (inputs.find? (fun q => isRadioCheckboxInput (attrsAt doc q))).isSome := by
      rw [List.find?_isSome]
      exact ⟨r, hr, hrc⟩
    obtain ⟨r', hr'⟩ := Option.isSome_iff_exists.mp hsome
    have hpr := List.find?_some hr'
    constructor
    · unfold s4Pick
      rw [if_pos rfl, hr']
    · rw [hr']
      simpa using hpr
  · intro hb
    unfold posScore
    rw [hb]
    simp

/-- C3 (witness). -/
theorem c3_boolean_bias_scope_witness :
    s4Pick c3doc (booleanRegexTest "agree") [[0, 1], [0, 2]] =
      [[0, 1], [0, 2]].find? (fun q => isRadioCheckboxInput (attrsAt c3doc q)) ∧
    [[0, 1], [0, 2]].find? (fun q => isRadioCheckboxInput (attrsAt c3doc q)) =
      some [0, 2] := by
  refine ⟨((c3_boolean_bias_scope c3doc "agree" [[0, 1], [0, 2]] {} []).1 (by decide)
    ⟨[0, 2], by decide, by decide⟩).1, by decide⟩

/-- C9.  findFormField reads only the DOM snapshot and the descriptor, so
for a fixed snapshot and descriptor two resolutions agree on the winning
element, method tag and score. -/
theorem c9_deterministic (doc1 doc2 : Doc) (d1 d2 : String)
    (hdoc : doc1 = doc2) (hd : d1 = d2) :
    findFormField doc1 d1 = findFormField doc2 d2 := by
  subst hdoc
  subst hd
  rfl

/-- C9 (witness). -/
theorem c9_deterministic_witness :
    findFormField adoc "Email" = findFormField adoc "Email" ∧
    findFormField adoc "Email" = some ⟨[1], "exact_label_match", 100⟩ :=
  ⟨c9_deterministic adoc adoc "Email" "Email" rfl rfl, by decide⟩

/-
  Locator builder lemmas.
-/

theorem foldl_append_str (l : List String) : ∀ s : String,
    List.foldl (fun r t => r ++ t) s l = s ++ List.foldl (fun r t => r ++ t) "" l := by
  induction l with
  | nil => intro s; simp
  | cons x l ih =>
    intro s
    rw [List.foldl_cons, List.foldl_cons]
    rw [ih (s ++ x), ih ("" ++ x)]
    rw [String.empty_append, String.append_assoc]

theorem joinStr_cons (x : String) (l : List String) :
    String.join (x :: l) = x ++ String.join l := by
  show List.foldl (fun r t => r ++ t) "" (x :: l) = _
  rw [List.foldl_cons, foldl_append_str, String.empty_append]
  rfl

theorem joinStr_nil : String.join ([] : List String) = "" := rfl

theorem joinStr_append (l1 l2 : List String) :
    String.join (l1 ++ l2) = String.join l1 ++ String.join l2 := by
  induction l1 with
  | nil =>
    show String.join l2 = String.join [] ++ String.join l2
    rw [show String.join ([] : List String) = "" from rfl, String.empty_append]
  | cons s l1 ih =>
    rw [List.cons_append, joinStr_cons, joinStr_cons, ih, String.append_assoc]

theorem ancestorsOrSelf_concat (xs : List Nat) (a : Nat) :
    ancestorsOrSelf (xs ++ [a]) = (xs ++ [a]) :: ancestorsOrSelf xs := by
  unfold ancestorsOrSelf
  rw [List.inits_append]
  simp

theorem getXPathGo_chain (doc : Doc) :
    ∀ (rq : List Nat) (path : String),
      getXPathGo doc rq path =
        String.join (((xpathChain doc rq).reverse).map (xpathSegment doc)) ++ path := by
  intro rq
  induction rq with
  | nil =>
    intro path
    rw [getXPathGo, xpathChain]
    simp [String.join]
  | cons i rp ih =>
    intro path
    rw [getXPathGo, xpathChain]
    by_cases hb : tagAt doc rp.reverse == "BODY"
    · rw [if_pos hb, if_pos hb]
      simp [String.join]
    · rw [if_neg hb, if_neg hb, ih]
      simp only [List.reverse_cons, List.map_append, joinStr_append, List.map_cons,
        List.map_nil, joinStr_cons, joinStr_nil, String.append_empty, String.append_assoc]

theorem xpathChain_spec (doc : Doc) :
    ∀ (rq : List Nat), tagAt doc rq.reverse ≠ "BODY" →
      xpathChain doc rq =
        (ancestorsOrSelf rq.reverse).takeWhile (fun q => tagAt doc q != "BODY") := by
  intro rq
  induction rq with
  | nil =>
    intro h
    rw [xpathChain]
    unfold ancestorsOrSelf
    have h' : (tagAt doc ([] : Addr) != "BODY") = true := by simpa using h
    simp [List.takeWhile_cons, h']
  | cons i rp ih =>
    intro h
    rw [xpathChain]
    have hrev : (i :: rp).reverse = rp.reverse ++ [i] := by simp
    rw [hrev, ancestorsOrSelf_concat]
    rw [List.takeWhile_cons]
    have hc : (tagAt doc (rp.reverse ++ [i]) != "BODY") = true := by
      rw [hrev] at h
      simpa using h
    rw [hc]
    simp only [if_true]
    by_cases hb : tagAt doc rp.reverse == "BODY"
    · rw [if_pos hb]
      obtain ⟨t, ht⟩ : ∃ t, ancestorsOrSelf rp.reverse = rp.reverse :: t := by
        rcases List.eq_nil_or_concat' rp.reverse with hnil | ⟨L, b, hlb⟩
        · rw [hnil]
          exact ⟨[], rfl⟩
        · rw [hlb, ancestorsOrSelf_concat]
          exact ⟨_, rfl⟩
      rw [ht, List.takeWhile_cons]
      have hfalse : (tagAt doc rp.reverse != "BODY") = false := by
        simpa using eq_of_beq hb
      rw [hfalse]
      simp
    · rw [if_neg hb]
      congr 1
      exact ih (by simpa using hb)

theorem getXPathGo_ne_empty (doc : Doc) :
    ∀ (rq : List Nat) (path : String),
      1 + path.length ≤ (getXPathGo doc rq path).length := by
  have hseg : ∀ q, 1 ≤ (xpathSegment doc q).length := by
    intro q
    unfold xpathSegment
    rw [String.length_append, String.length_append]
    have : ("/" : String).length = 1 := rfl
    omega
  intro rq
  induction rq with
  | nil =>
    intro path
    rw [getXPathGo, String.length_append]
    have := hseg ([] : Addr)
    omega
  | cons i rp ih =>
    intro path
    rw [getXPathGo]
    by_cases hb : tagAt doc rp.reverse == "BODY"
    · rw [if_pos hb]
      rw [String.length_append]
      have := hseg ((i :: rp).reverse)
      omega
    · rw [if_neg hb]
      have h2 := ih (xpathSegment doc ((i :: rp).reverse) ++ path)
      rw [String.length_append] at h2
      have := hseg ((i :: rp).reverse)
      omega

theorem getXPathClickGo_spec (doc : Doc) :
    ∀ (rq : List Nat) (path : String),
      getXPathClickGo doc rq path =
        String.join (((ancestorsOrSelf rq.reverse).reverse).map (xpathSegment doc)) ++
          path := by
  intro rq
  induction rq with
  | nil =>
    intro path
    rw [getXPathClickGo]
    unfold ancestorsOrSelf
    simp only [List.reverse_nil, List.inits, List.map_nil, List.map_cons, List.reverse_cons,
      List.nil_append, joinStr_cons, joinStr_nil, String.append_empty]
  | cons i rp ih =>
    intro path
    rw [getXPathClickGo, ih]
    have hrev : (i :: rp).reverse = rp.reverse ++ [i] := by simp
    rw [hrev, ancestorsOrSelf_concat]
    simp only [List.reverse_cons, List.map_append, joinStr_append, List.map_cons,
      List.map_nil, joinStr_cons, joinStr_nil, String.append_empty, String.append_assoc]

/-- C8 (counterexample).  On a body > div > span page, the getXPath copy
cited from click_element (shared by debug_element) has no BODY cutoff and
returns a path carrying the body segment, /body/div/span[2] in the
snapshot (a live document further prepends /html), while the path the
claim describes, one segment per ancestor up to and not including the
body element, is /div/span[2]. -/
theorem c8_counterexample :
    getXPathClick xdoc [0, 1] = "/body/div/span[2]" ∧
    xpathByAncestors xdoc [0, 1] = "/div/span[2]" ∧
    strContains (getXPathClick xdoc [0, 1]) "/body" = true ∧
    strContains (xpathByAncestors xdoc [0, 1]) "/body" = false := by
  refine ⟨by decide, by decide, by decide, by decide⟩

/-- C8 (amended).  Both getXPath variants return the id locator whenever
the id is non-empty.  The copies of map_form_fields, select_option,
check_radio, check_checkbox, click_custom_element and submit_form
otherwise build, outermost first, one segment per ancestor-or-self up to
and not including the BODY element, each segment carrying an [N]
qualifier exactly when the same-tag preceding sibling count makes N
exceed 1 (which is what xpathSegment computes).  The copies of
click_element and debug_element have no BODY cutoff and instead emit one
segment for every element ancestor-or-self, so their paths additionally
carry the body segment (and, in a live document, an html segment). -/
theorem c8_getXPath_variants (doc : Doc) (p : Addr)
    (hbody : tagAt doc p ≠ "BODY") :
    (getXPath doc p =
      if (attrsAt doc p).id ≠ "" then "//*[@id=\"" ++ (attrsAt doc p).id ++ "\"]"
      else xpathByAncestors doc p) ∧
    (getXPathClick doc p =
      if (attrsAt doc p).id ≠ "" then "//*[@id=\"" ++ (attrsAt doc p).id ++ "\"]"
      else xpathByAllAncestors doc p) := by
  constructor
  · have hlen := getXPathGo_ne_empty doc p.reverse ""
    have hpath : getXPathGo doc p.reverse "" = xpathByAncestors doc p := by
      rw [getXPathGo_chain, xpathChain_spec doc p.reverse (by rwa [List.reverse_reverse]),
        List.reverse_reverse]
      unfold xpathByAncestors
      exact String.append_empty _
    have hne' : (getXPathGo doc p.reverse "" == "") = false := by
      rcases hbeq : (getXPathGo doc p.reverse "" == "") with _ | _
      · rfl
      · exfalso
        have heq : getXPathGo doc p.reverse "" = "" := eq_of_beq hbeq
        rw [heq] at hlen
        simp [String.length] at hlen
    unfold getXPath
    by_cases hid : (attrsAt doc p).id = ""
    · have hb : ((attrsAt doc p).id != "") = false := by simpa using hid
      rw [hb]
      simp only [Bool.false_eq_true, if_false]
      rw [hne']
      simp only [Bool.false_eq_true, if_false]
      rw [hpath, if_neg (not_not_intro hid)]
    · have hb : ((attrsAt doc p).id != "") = true := by simpa using hid
      rw [hb]
      simp [hid]
  · unfold getXPathClick
    by_cases hid : (attrsAt doc p).id = ""
    · have hb : ((attrsAt doc p).id != "") = false := by simpa using hid
      rw [hb]
      simp only [Bool.false_eq_true, if_false]
      rw [getXPathClickGo_spec, List.reverse_reverse, if_neg (not_not_intro hid)]
      unfold xpathByAllAncestors
      exact String.append_empty _
    · have hb : ((attrsAt doc p).id != "") = true := by simpa using hid
      rw [hb]
      simp [hid]

/-- C8 (witness). -/
theorem c8_getXPath_variants_witness :
    getXPath xdoc [0, 1] = "/div/span[2]" ∧
    getXPathClick xdoc [0, 1] = "/body/div/span[2]" := by
  have h := c8_getXPath_variants xdoc [0, 1] (by decide)
  constructor
  · rw [h.1]
    decide
  · rw [h.2]
    decide

/-- C6.  detect_form_fields and map_form_fields share the element query,
visibility gate, label resolver and type classifier, so on an unchanged
snapshot mapping returns the same fields as detection with only the xpath
and example attributes added: forgetting those two attributes recovers the
detection list exactly, and the counts agree. -/
theorem c6_detect_map_roundtrip (doc : Doc) :
    (mapFields doc).map MappedField.toFormField = detectFields doc ∧
    (mapFields doc).length = (detectFields doc).length := by
  have key : ∀ n, ((mapEntry doc n).map MappedField.toFormField) = detectEntry doc n := by
    intro n
    unfold mapEntry detectEntry
    by_cases h1 : (!isVisibleDetect n.attrs) = true
    · rw [if_pos h1, if_pos h1]
      rfl
    · rw [if_neg h1, if_neg h1]
      dsimp only
      by_cases h2 : ((mkFormField doc n).label != "" || n.attrs.name != "" ||
          n.attrs.id != "" || n.attrs.placeholder != "") = true
      · rw [if_pos h2, if_pos h2]
        rfl
      · rw [if_neg h2, if_neg h2]
        rfl
  have h1 : (mapFields doc).map MappedField.toFormField = detectFields doc := by
    unfold mapFields detectFields
    rw [List.map_filterMap]
    congr 1
    funext n
    exact key n
  exact ⟨h1, by rw [← h1, List.length_map]⟩

/-- C7.  Every successful fill_form interaction ends with the trailing
block: input, then change, then blur, in that order, the input being
skipped exactly for select elements (whose trace is the in-branch change
followed by the trailing change and blur); and the text/textarea branch
first writes the empty string dispatching input, then the new value
dispatching input again, before that trailing block. -/
theorem c7_event_sequence (doc : Doc) (p : Addr) (value : String) :
    ((fillInteraction doc p value).success = true →
      (attrsAt doc p).tag ≠ "SELECT" →
      ∃ pre, (fillInteraction doc p value).events =
        pre ++ [Ev.input, Ev.change, Ev.blur]) ∧
    ((fillInteraction doc p value).success = true →
      (attrsAt doc p).tag = "SELECT" →
      (fillInteraction doc p value).events = [Ev.change] ++ [Ev.change, Ev.blur]) ∧
    ((attrsAt doc p).tag ≠ "SELECT" →
      isCheckboxLike (attrsAt doc p) = false →
      isRadioLike (attrsAt doc p) = false →
      hasValueProp (attrsAt doc p) = true →
      (fillInteraction doc p value).events =
        [Ev.input, Ev.input] ++ [Ev.input, Ev.change, Ev.blur] ∧
      (fillInteraction doc p value).valueWrites = ["", value]) := by
  by_cases hs : ((attrsAt doc p).tag == "SELECT") = true
  · have hseq : (attrsAt doc p).tag = "SELECT" := eq_of_beq hs
    refine ⟨fun _ hne => absurd hseq hne, ?_, fun hne _ _ _ => absurd hseq hne⟩
    intro hsucc _
    unfold fillInteraction at hsucc ⊢
    dsimp only at hsucc ⊢
    rw [if_pos hs] at hsucc ⊢
    cases hfind : (selectOptsOf doc p).find? (fillSelectMatch value) with
    | some o =>
      simp [trailingEvents, hs]
    | none =>
      rw [hfind] at hsucc
      simp at hsucc
  · have hne : (attrsAt doc p).tag ≠ "SELECT" := by simpa using hs
    have htr : trailingEvents (attrsAt doc p).tag = [Ev.input, Ev.change, Ev.blur] := by
      unfold trailingEvents
      rw [if_neg hs]
      rfl
    refine ⟨?_, fun _ h => absurd h hne, ?_⟩
    · intro _ _
      unfold fillInteraction
      dsimp only
      rw [if_neg hs]
      dsimp only
      rw [htr]
      exact ⟨_, rfl⟩
    · intro _ hcb hrad hval
      unfold fillInteraction
      dsimp only
      rw [if_neg hs]
      dsimp only
      rw [htr]
      constructor <;> simp [hcb, hrad, hval]

/-- C7 (witness). -/
theorem c7_event_sequence_witness :
    (fillInteraction adoc [1] "a@b.com").events =
      [Ev.input, Ev.input] ++ [Ev.input, Ev.change, Ev.blur] ∧
    (fillInteraction adoc [1] "a@b.com").valueWrites = ["", "a@b.com"] :=
  (c7_event_sequence adoc [1] "a@b.com").2.2 (by decide) (by decide) (by decide) (by decide)

theorem detectEntry_eq_some (doc : Doc) (n : DomNode) (f : FormField) :
    detectEntry doc n = some f ↔
      isVisibleDetect n.attrs = true ∧ f = mkFormField doc n ∧
      ((mkFormField doc n).label != "" || n.attrs.name != "" ||
        n.attrs.id != "" || n.attrs.placeholder != "") = true := by
  unfold detectEntry
  by_cases h1 : (!isVisibleDetect n.attrs) = true
  · have hv : isVisibleDetect n.attrs = false := by simpa using h1
    rw [if_pos h1]
    simp [hv]
  · have hv : isVisibleDetect n.attrs = true := by simpa using h1
    rw [if_neg h1]
    dsimp only
    by_cases h2 : ((mkFormField doc n).label != "" || n.attrs.name != "" ||
        n.attrs.id != "" || n.attrs.placeholder != "") = true
    · rw [if_pos h2]
      constructor
      · intro h
        exact ⟨hv, (Option.some.injEq _ _ ▸ h).symm, h2⟩
      · rintro ⟨_, rfl, _⟩
        rfl
    · rw [if_neg h2]
      constructor
      · intro h
        exact absurd h (by simp)
      · rintro ⟨_, rfl, hident⟩
        exact absurd hident h2

theorem mapEntry_eq_some (doc : Doc) (n : DomNode) (m : MappedField) :
    mapEntry doc n = some m ↔
      isVisibleDetect n.attrs = true ∧ m = mkMappedField doc n ∧
      ((mkFormField doc n).label != "" || n.attrs.name != "" ||
        n.attrs.id != "" || n.attrs.placeholder != "") = true := by
  unfold mapEntry
  by_cases h1 : (!isVisibleDetect n.attrs) = true
  · have hv : isVisibleDetect n.attrs = false := by simpa using h1
    rw [if_pos h1]
    simp [hv]
  · have hv : isVisibleDetect n.attrs = true := by simpa using h1
    rw [if_neg h1]
    dsimp only
    by_cases h2 : ((mkFormField doc n).label != "" || n.attrs.name != "" ||
        n.attrs.id != "" || n.attrs.placeholder != "") = true
    · rw [if_pos h2]
      constructor
      · intro h
        exact ⟨hv, (Option.some.injEq _ _ ▸ h).symm, h2⟩
      · rintro ⟨_, rfl, _⟩
        rfl
    · rw [if_neg h2]
      constructor
      · intro h
        exact absurd h (by simp)
      · rintro ⟨_, rfl, hident⟩
        exact absurd hident h2

/-- C10.  The reported fields are exactly the queried elements
(input without type hidden, select, textarea, contenteditable) that pass
the visibility check and carry at least one identification (non-empty
resolved label, name, id or placeholder); a visible queried element
lacking all four is omitted; and the selector attribute of a reported
field is "#id" when the element has an id, the name attribute selector
when it only has a name, and null otherwise.  The same holds for
map_form_fields. -/
theorem c10_detection_characterization (doc : Doc) :
    (∀ f : FormField, f ∈ detectFields doc ↔ ∃ n, n ∈ doc ∧
      isDetectTarget n.attrs = true ∧ isVisibleDetect n.attrs = true ∧
      f = mkFormField doc n ∧
      (f.label ≠ "" ∨ f.name ≠ "" ∨ f.id ≠ "" ∨ f.placeholder ≠ "")) ∧
    (∀ m : MappedField, m ∈ mapFields doc ↔ ∃ n, n ∈ doc ∧
      isDetectTarget n.attrs = true ∧ isVisibleDetect n.attrs = true ∧
      m = mkMappedField doc n ∧
      (m.label ≠ "" ∨ m.name ≠ "" ∨ m.id ≠ "" ∨ m.placeholder ≠ "")) ∧
    (∀ f : FormField, f ∈ detectFields doc →
      f.selector = if f.id ≠ "" then some ("#" ++ f.id)
        else if f.name ≠ "" then some ("[name=\"" ++ f.name ++ "\"]") else none) := by
  have hidentConv : ∀ (n : DomNode) (f : FormField), f = mkFormField doc n →
      (((mkFormField doc n).label != "" || n.attrs.name != "" ||
        n.attrs.id != "" || n.attrs.placeholder != "") = true ↔
      (f.label ≠ "" ∨ f.name ≠ "" ∨ f.id ≠ "" ∨ f.placeholder ≠ "")) := by
    rintro n f rfl
    simp [mkFormField, Bool.or_eq_true, bne_iff_ne, or_assoc]
  have hdet : ∀ f : FormField, f ∈ detectFields doc ↔ ∃ n, n ∈ doc ∧
      isDetectTarget n.attrs = true ∧ isVisibleDetect n.attrs = true ∧
      f = mkFormField doc n ∧
      (f.label ≠ "" ∨ f.name ≠ "" ∨ f.id ≠ "" ∨ f.placeholder ≠ "") := by
    intro f
    unfold detectFields
    rw [List.mem_filterMap]
    constructor
    · rintro ⟨n, hn, he⟩
      obtain ⟨hmem, htgt⟩ := List.mem_filter.mp hn
      obtain ⟨hvis, hmk, hident⟩ := (detectEntry_eq_some doc n f).mp he
      exact ⟨n, hmem, htgt, hvis, hmk, (hidentConv n f hmk).mp hident⟩
    · rintro ⟨n, hmem, htgt, hvis, hmk, hident⟩
      exact ⟨n, List.mem_filter.mpr ⟨hmem, htgt⟩,
        (detectEntry_eq_some doc n f).mpr ⟨hvis, hmk, (hidentConv n f hmk).mpr hident⟩⟩
  refine ⟨hdet, ?_, ?_⟩
  · intro m
    unfold mapFields
    rw [List.mem_filterMap]
    have hconv : ∀ n : DomNode, m = mkMappedField doc n →
        (((mkFormField doc n).label != "" || n.attrs.name != "" ||
          n.attrs.id != "" || n.attrs.placeholder != "") = true ↔
        (m.label ≠ "" ∨ m.name ≠ "" ∨ m.id ≠ "" ∨ m.placeholder ≠ "")) := by
      rintro n rfl
      simp [mkMappedField, mkFormField, Bool.or_eq_true, bne_iff_ne, or_assoc]
    constructor
    · rintro ⟨n, hn, he⟩
      obtain ⟨hmem, htgt⟩ := List.mem_filter.mp hn
      obtain ⟨hvis, hmk, hident⟩ := (mapEntry_eq_some doc n m).mp he
      exact ⟨n, hmem, htgt, hvis, hmk, (hconv n hmk).mp hident⟩
    · rintro ⟨n, hmem, htgt, hvis, hmk, hident⟩
      exact ⟨n, List.mem_filter.mpr ⟨hmem, htgt⟩,
        (mapEntry_eq_some doc n m).mpr ⟨hvis, hmk, (hconv n hmk).mpr hident⟩⟩
  · intro f hf
    obtain ⟨n, _, _, _, hmk, _⟩ := (hdet f).mp hf
    subst hmk
    show (mkFormField doc n).selector = _
    by_cases hid : n.attrs.id = ""
    · by_cases hnm : n.attrs.name = ""
      · simp [mkFormField, hid, hnm]
      · simp [mkFormField, hid, hnm]
    · simp [mkFormField, hid]

/-- C10 (witness). -/
theorem c10_detection_characterization_witness :
    mkFormField adoc ⟨[1], { tag := "INPUT", type := "text", id := "em" }⟩ ∈
      detectFields adoc ∧
    (mkFormField adoc ⟨[1], { tag := "INPUT", type := "text", id := "em" }⟩).selector =
      some "#em" := by
  have h := c10_detection_characterization adoc
  have hmem := (h.1 (mkFormField adoc ⟨[1], { tag := "INPUT", type := "text", id := "em" }⟩)).mpr
    ⟨⟨[1], { tag := "INPUT", type := "text", id := "em" }⟩, by decide, by decide, by decide,
      rfl, by decide⟩
  refine ⟨hmem, ?_⟩
  have hsel := h.2.2 _ hmem
  rw [hsel]
  decide

/-- C5 (counterexample).  _handle_detect_fields_result opens with
result.get("success") and so raises AttributeError on a None payload: it
is not total on None, refuting that every result handler is. -/
theorem c5_counterexample : handleDetectFieldsResult none = HandlerOutcome.attrError := rfl

/-- C5 (amended).  Only _handle_form_fill_result guards the None payload,
reporting it as its own warning message (it is total on None);
_handle_detect_fields_result, like the other unguarded handlers, raises
AttributeError on None. -/
theorem c5_null_handling :
    handleFormFillResult none =
      HandlerOutcome.messages ["Error processing form fill result: received None"] ∧
    handleDetectFieldsResult none = HandlerOutcome.attrError :=
  ⟨rfl, rfl⟩

end SageBrowser
